import Mathlib

/-!
Shallow embedding of the Kwality runtime-validation engine
(`engines/runtime-validator/src/`).  Scores are modelled over `ℚ`
(the Rust code uses `f64` with small decimal constants), machine
integers (`u32`/`u64`) over `ℕ`, `i32`/`i64` over `ℤ`.  Wall-clock
timestamps (`chrono::Utc::now`) and freshly generated UUIDs are
external nondeterminism and are not carried in the embedded records;
fields derived from them are omitted or set to placeholder strings.
-/

namespace Kwality

/-! ## Core data model (`lib.rs`) -/

/-- `ValidationStatus` (lib.rs). -/
inductive ValidationStatus
  | Pending | Running | Completed | Failed | Timeout | Cancelled
deriving DecidableEq, Repr

/-- The terminal statuses of the session state machine. -/
def ValidationStatus.isTerminal : ValidationStatus → Bool
  | .Completed | .Failed | .Timeout | .Cancelled => true
  | _ => false

/-- `Severity` (lib.rs). -/
inductive Severity
  | Critical | High | Medium | Low | Info
deriving DecidableEq, Repr

/-- `FindingType` (lib.rs). -/
inductive FindingType
  | SecurityVulnerability | PerformanceIssue | RuntimeError | MemoryLeak
  | ResourceExhaustion | UnexpectedBehavior | CrashProne
deriving DecidableEq, Repr

/-- `Finding` (lib.rs).  `id` is a fresh UUID in the source; the
evidence map (string → JSON) is modelled as string pairs. -/
structure Finding where
  id : String
  finding_type : FindingType
  severity : Severity
  title : String
  description : String
  file : Option String
  line : Option Nat
  evidence : List (String × String)
  confidence : ℚ
deriving DecidableEq, Repr

/-- `Priority` (lib.rs). -/
inductive Priority
  | Critical | High | Medium | Low
deriving DecidableEq, Repr

/-- `EffortLevel` (lib.rs). -/
inductive EffortLevel
  | Low | Medium | High | VeryHigh
deriving DecidableEq, Repr

/-- `ImpactLevel` (lib.rs). -/
inductive ImpactLevel
  | Low | Medium | High | Critical
deriving DecidableEq, Repr

/-- `Recommendation` (lib.rs).  `id` is a fresh UUID in the source. -/
structure Recommendation where
  id : String
  title : String
  description : String
  priority : Priority
  action : String
  effort : EffortLevel
  impact : ImpactLevel
deriving DecidableEq, Repr

/-- `FileType` (lib.rs). -/
inductive FileType
  | Source | Test | Config | Build | Documentation | Asset | Other
deriving DecidableEq, Repr

/-- `CodeFile` (lib.rs). -/
structure CodeFile where
  path : String
  content : String
  language : Option String
  file_type : FileType
  size : Nat
deriving DecidableEq, Repr

/-- `Codebase` (lib.rs); the metadata JSON map is modelled as string
pairs. -/
structure Codebase where
  id : String
  name : String
  files : List CodeFile
  metadata : List (String × String)
deriving DecidableEq, Repr

/-! ## Security observer data model (`security.rs`) -/

/-- `RiskLevel` (security.rs). -/
inductive RiskLevel
  | Critical | High | Medium | Low | Minimal
deriving DecidableEq, Repr

/-- `ViolationType` (security.rs). -/
inductive ViolationType
  | UnauthorizedSyscall | NetworkAccess | FileSystemAccess | PrivilegeEscalation
  | ResourceExhaustion | CryptographicWeakness | InputValidation
  | MemoryCorruption | CodeInjection | InformationDisclosure
deriving DecidableEq, Repr

/-- `ViolationSeverity` (security.rs). -/
inductive ViolationSeverity
  | Critical | High | Medium | Low | Info
deriving DecidableEq, Repr

/-- `SecurityViolation` (security.rs); the `timestamp` field
(`Utc::now`) is omitted. -/
structure SecurityViolation where
  violation_type : ViolationType
  severity : ViolationSeverity
  title : String
  description : String
  location : Option String
  evidence : List (String × String)
  risk_level : String
  mitigation : String
deriving DecidableEq, Repr

/-- `VulnerabilityType` (security.rs). -/
inductive VulnerabilityType
  | BufferOverflow | SqlInjection | CrossSiteScripting | PathTraversal
  | CommandInjection | DeserializationVulnerability | CryptographicWeakness
  | AuthenticationBypass | AuthorizationFlaws | InformationLeakage
  | DependencyVulnerability | ConfigurationError
deriving DecidableEq, Repr

/-- `VulnerabilitySeverity` (security.rs). -/
inductive VulnerabilitySeverity
  | Critical | High | Medium | Low
deriving DecidableEq, Repr

/-- `Vulnerability` (security.rs); the `discovered_at` timestamp
(`Utc::now`) is omitted. -/
structure Vulnerability where
  id : String
  vulnerability_type : VulnerabilityType
  severity : VulnerabilitySeverity
  title : String
  description : String
  affected_component : String
  cve_id : Option String
  cvss_score : Option ℚ
  remediation : String
  references : List String
deriving DecidableEq, Repr

/-- `SecretType` (security.rs). -/
inductive SecretType
  | ApiKey | Password | Token | Certificate | PrivateKey | DatabaseCredential
  | CloudCredential | CryptographicKey | SessionToken | Other
deriving DecidableEq, Repr

/-- `SecretSeverity` (security.rs). -/
inductive SecretSeverity
  | Critical | High | Medium | Low
deriving DecidableEq, Repr

/-- `SecretFindings` (security.rs). -/
structure SecretFindings where
  secret_type : SecretType
  confidence : ℚ
  file_path : String
  line_number : Nat
  matched_text : String
  context : String
  severity : SecretSeverity
deriving DecidableEq, Repr

/-- `SecurityResult` (security.rs); the behavioural-anomaly,
compliance and recommendation lists are not needed by any claim and
are omitted. -/
structure SecurityResult where
  security_score : ℚ
  risk_level : RiskLevel
  violations : List SecurityViolation
  vulnerabilities : List Vulnerability
  secrets : List SecretFindings
deriving DecidableEq, Repr

/-- `SecurityResult::default` (security.rs). -/
def SecurityResult.default : SecurityResult :=
  { security_score := 0
    risk_level := .Critical
    violations := []
    vulnerabilities := []
    secrets := [] }

/-! ## Security score and risk level (`security.rs` 510–572) -/

/-- Per-violation deduction of `calculate_security_score`. -/
def violationDeduction : ViolationSeverity → ℚ
  | .Critical => 25
  | .High => 15
  | .Medium => 8
  | .Low => 3
  | .Info => 1

/-- Per-vulnerability deduction of `calculate_security_score`. -/
def vulnerabilityDeduction : VulnerabilitySeverity → ℚ
  | .Critical => 30
  | .High => 20
  | .Medium => 10
  | .Low => 5

/-- Per-secret base deduction of `calculate_security_score`
(multiplied by the secret's confidence). -/
def secretDeduction : SecretSeverity → ℚ
  | .Critical => 20
  | .High => 12
  | .Medium => 6
  | .Low => 2

/-- `SecurityMonitor::calculate_security_score` (security.rs 510–553):
start at 100, subtract per-item deductions in order, then
`score.max(0.0)`. -/
def calculate_security_score (violations : List SecurityViolation)
    (vulnerabilities : List Vulnerability) (secrets : List SecretFindings) : ℚ :=
  let s1 := violations.foldl (fun acc v => acc - violationDeduction v.severity) 100
  let s2 := vulnerabilities.foldl (fun acc v => acc - vulnerabilityDeduction v.severity) s1
  let s3 := secrets.foldl (fun acc s => acc - secretDeduction s.severity * s.confidence) s2
  max s3 0

/-- The security score as the specification words it (claim C3):
100 minus the per-severity deductions, clamped to the interval
[0, 100]. -/
def securityScoreSpec (violations : List SecurityViolation)
    (vulnerabilities : List Vulnerability) (secrets : List SecretFindings) : ℚ :=
  let raw := 100 - ((violations.map (fun v => violationDeduction v.severity)).sum
    + (vulnerabilities.map (fun v => vulnerabilityDeduction v.severity)).sum
    + (secrets.map (fun s => secretDeduction s.severity * s.confidence)).sum)
  max 0 (min 100 raw)

/-- `SecurityMonitor::determine_risk_level` (security.rs 556–572). -/
def determine_risk_level (score : ℚ) (violations : List SecurityViolation) : RiskLevel :=
  let has_critical := violations.any (fun v => v.severity == ViolationSeverity.Critical)
  if has_critical || decide (score < 30) then .Critical
  else if score < 50 then .High
  else if score < 70 then .Medium
  else if score < 90 then .Low
  else .Minimal

/-- The risk level as the specification words it (claim C8). -/
def riskLevelSpec (score : ℚ) (violations : List SecurityViolation) : RiskLevel :=
  if (∃ v ∈ violations, v.severity = ViolationSeverity.Critical) ∨ score < 30 then .Critical
  else if score < 50 then .High
  else if score < 70 then .Medium
  else if score < 90 then .Low
  else .Minimal

/-! ## Static scans (`security.rs` 741–867)

The `regex` crate is an external library; where a scan's regular
expressions matter, their `is_match` test is passed in as an oracle
`isMatch patternKey content`. -/

/-- `VulnerabilityPattern` (security.rs) without the compiled regex
(kept as its key into the pattern database). -/
structure VulnerabilityPattern where
  name : String
  severity : VulnerabilitySeverity
  description : String
deriving DecidableEq, Repr

/-- `VulnerabilityScanner::new` (security.rs 743–769): the built-in
pattern database, keyed by pattern id. -/
def vulnerability_db : List (String × VulnerabilityPattern) :=
  [("sql_injection",
    { name := "SQL Injection"
      severity := .High
      description := "Potential SQL injection vulnerability" }),
   ("command_injection",
    { name := "Command Injection"
      severity := .Critical
      description := "Potential command injection vulnerability" })]

/-- `VulnerabilityScanner::scan_file` (security.rs 772–785).  The
source loops over the database and, on a regex match, only emits a
debug-level log line; nothing is recorded.  The returned list of
matched pattern names is that log output — the function's sole
observable effect. -/
def VulnerabilityScanner.scan_file (isMatch : String → String → Bool)
    (file : CodeFile) : List String :=
  ((vulnerability_db.filter (fun p => isMatch p.1 file.content)).map (fun p => p.2.name))

/-- `VulnerabilityScanner::get_findings` (security.rs 788–803):
returns a fixed example vulnerability list, independent of anything
scanned ("Simplified - return example vulnerabilities"). -/
def VulnerabilityScanner.get_findings : List Vulnerability :=
  [{ id := "vuln-001"
     vulnerability_type := .SqlInjection
     severity := .High
     title := "Potential SQL Injection"
     description := "User input used directly in SQL query"
     affected_component := "database.go:45"
     cve_id := none
     cvss_score := some 7.5
     remediation := "Use parameterized queries or prepared statements"
     references := ["https://owasp.org/www-community/attacks/SQL_Injection"] }]

/-- `SecretsDetector::get_findings` (security.rs 856–867): returns a
fixed example finding list, independent of anything scanned. -/
def SecretsDetector.get_findings : List SecretFindings :=
  [{ secret_type := .ApiKey
     confidence := 0.85
     file_path := "config.go"
     line_number := 15
     matched_text := "api_key = \x22sk-1234567890abcdef\x22"
     context := "API key configuration"
     severity := .High }]

/-- `SecurityMonitor::collect_vulnerabilities` (security.rs 466–468):
delegates to the scanner's `get_findings`, ignoring the codebase. -/
def collect_vulnerabilities (_codebase : Codebase) : List Vulnerability :=
  VulnerabilityScanner.get_findings

/-- `SecurityMonitor::collect_secrets` (security.rs 471–473):
delegates to the detector's `get_findings`, ignoring the codebase. -/
def collect_secrets (_codebase : Codebase) : List SecretFindings :=
  SecretsDetector.get_findings

/-! ## Performance metrics (`performance.rs`) -/

/-- `PerformanceMetrics` (performance.rs 25–39); the nested
benchmark/profiling/bottleneck/recommendation records are not needed
by any claim and are omitted. -/
structure PerformanceMetrics where
  execution_time_ms : Nat
  cpu_usage_percent : ℚ
  memory_usage_mb : Nat
  peak_memory_mb : Nat
  disk_io_mb : Nat
  network_io_mb : Nat
  context_switches : Nat
  page_faults : Nat
  cache_misses : Nat
deriving DecidableEq, Repr

/-- `PerformanceMetrics::default` (performance.rs 672 ff.). -/
def PerformanceMetrics.default : PerformanceMetrics :=
  { execution_time_ms := 0
    cpu_usage_percent := 0
    memory_usage_mb := 0
    peak_memory_mb := 0
    disk_io_mb := 0
    network_io_mb := 0
    context_switches := 0
    page_faults := 0
    cache_misses := 0 }

/-! ## Fuzzing (`fuzzing.rs`) -/

/-- `CrashType` (fuzzing.rs). -/
inductive CrashType
  | SegmentationFault | MemoryCorruption | StackOverflow | HeapOverflow
  | IntegerOverflow | DivisionByZero | NullPointerDereference
  | AssertionFailure | Panic | Timeout | OutOfMemory
  | Other (s : String)
deriving DecidableEq, Repr

/-- `std::mem::discriminant` on `CrashType`: the variant tag,
ignoring the `Other` payload. -/
def CrashType.tag : CrashType → Nat
  | .SegmentationFault => 0
  | .MemoryCorruption => 1
  | .StackOverflow => 2
  | .HeapOverflow => 3
  | .IntegerOverflow => 4
  | .DivisionByZero => 5
  | .NullPointerDereference => 6
  | .AssertionFailure => 7
  | .Panic => 8
  | .Timeout => 9
  | .OutOfMemory => 10
  | .Other _ => 11

/-- `CrashSeverity` (fuzzing.rs). -/
inductive CrashSeverity
  | Critical | High | Medium | Low
deriving DecidableEq, Repr

/-- `CrashReport` (fuzzing.rs); `id` (UUID) and `timestamp`
(`Utc::now`) are external nondeterminism, `id` kept as placeholder. -/
structure CrashReport where
  id : String
  crash_type : CrashType
  severity : CrashSeverity
  reproducer_input : String
  stack_trace : String
  error_message : String
  crash_location : Option String
deriving DecidableEq, Repr

/-- The private `ExecutionResult` of fuzzing.rs (423–432); the
`Duration` is carried in milliseconds. -/
structure FuzzExecutionResult where
  exit_code : Int
  execution_time_ms : Nat
  memory_usage : Nat
  execution_path : String
  stdout : String
  stderr : String
deriving DecidableEq, Repr

/-- Substring test: `pat` occurs inside `s`.  Each crash/stderr regex
in the source is an alternation of string literals, so `is_match`
reduces to such tests. -/
def strContains (s pat : String) : Bool :=
  decide (pat.toList <:+: s.toList)

/-- A regex that is an alternation of literals matches iff one
alternative occurs as a substring. -/
def matchesAlternation (alts : List String) (s : String) : Bool :=
  alts.any (fun pat => strContains s pat)

/-- `CrashPattern` (fuzzing.rs) with the regex as its list of literal
alternatives. -/
structure CrashPattern where
  alternatives : List String
  crash_type : CrashType
  severity : CrashSeverity
deriving DecidableEq, Repr

/-- `CrashDetector::new` (fuzzing.rs 689–717): the ordered pattern
table. -/
def crash_patterns : List CrashPattern :=
  [{ alternatives := ["segmentation fault", "segfault"]
     crash_type := .SegmentationFault, severity := .Critical },
   { alternatives := ["stack overflow"]
     crash_type := .StackOverflow, severity := .High },
   { alternatives := ["out of memory", "oom"]
     crash_type := .OutOfMemory, severity := .High },
   { alternatives := ["assertion failed", "panic"]
     crash_type := .AssertionFailure, severity := .Medium }]

/-- The `crash_history` deque of `CrashDetector` (front = oldest). -/
structure CrashDetectorState where
  crash_history : List CrashReport
deriving DecidableEq, Repr

/-- `CrashDetector::analyze_execution` (fuzzing.rs 719–758): exit 0
is no crash; otherwise the first matching stderr pattern classifies
the crash and the crash is appended to the bounded history (capacity
1000, oldest dropped); an unmatched non-zero exit falls through to a
generic `Other` crash, which the source does not add to the history. -/
def analyze_execution (st : CrashDetectorState) (execution : FuzzExecutionResult) :
    Option CrashReport × CrashDetectorState :=
  if execution.exit_code = 0 then (none, st)
  else
    match crash_patterns.find? (fun p => matchesAlternation p.alternatives execution.stderr) with
    | some p =>
        let crash : CrashReport :=
          { id := ""
            crash_type := p.crash_type
            severity := p.severity
            reproducer_input := ""
            stack_trace := execution.stderr
            error_message := execution.stderr
            crash_location := none }
        let hist := st.crash_history ++ [crash]
        let hist := if hist.length > 1000 then hist.drop 1 else hist
        (some crash, { crash_history := hist })
    | none =>
        (some
          { id := ""
            crash_type := .Other ("Exit code " ++ toString execution.exit_code)
            severity := .Medium
            reproducer_input := ""
            stack_trace := execution.stderr
            error_message := "Process exited with code " ++ toString execution.exit_code
            crash_location := none },
         st)

/-- Crash classification as the specification words it (claim C7):
the first stderr pattern that matches, in table order, else
`Other(exit_code)`. -/
def classifyCrashSpec (execution : FuzzExecutionResult) : CrashType :=
  if matchesAlternation ["segmentation fault", "segfault"] execution.stderr then .SegmentationFault
  else if matchesAlternation ["stack overflow"] execution.stderr then .StackOverflow
  else if matchesAlternation ["out of memory", "oom"] execution.stderr then .OutOfMemory
  else if matchesAlternation ["assertion failed", "panic"] execution.stderr then .AssertionFailure
  else .Other ("Exit code " ++ toString execution.exit_code)

/-- `FuzzingEngine::is_unique_crash` (fuzzing.rs 352–358): no
existing crash shares the variant of `crash_type` and the
`crash_location`. -/
def is_unique_crash (crash : CrashReport) (existing_crashes : List CrashReport) : Bool :=
  !(existing_crashes.any (fun e =>
    (CrashType.tag crash.crash_type == CrashType.tag e.crash_type)
    && (crash.crash_location == e.crash_location)))

/-- `FuzzingStrategy` (lib.rs). -/
inductive FuzzingStrategy
  | Random | Structured | Mutation | Grammar
deriving DecidableEq, Repr

/-- `FuzzingConfig` (lib.rs). -/
structure FuzzingConfig where
  enabled : Bool
  duration_seconds : Nat
  iterations : Nat
  strategy : FuzzingStrategy
  coverage_guided : Bool
deriving DecidableEq, Repr

/-- `FuzzingResult` (fuzzing.rs 27–38); the coverage record,
interesting inputs and performance anomalies are not needed by any
claim and are omitted, along with the wall-clock execution time. -/
structure FuzzingResult where
  total_executions : Nat
  crashes_found : Nat
  unique_crashes : Nat
  coverage_percentage : ℚ
  crashes : List CrashReport
deriving DecidableEq, Repr

/-- The empty campaign result initialized at the top of `fuzz_code`. -/
def FuzzingResult.init : FuzzingResult :=
  { total_executions := 0
    crashes_found := 0
    unique_crashes := 0
    coverage_percentage := 0
    crashes := [] }

/-- One iteration of the `fuzz_code` loop (fuzzing.rs 231–291),
restricted to the execution counter and crash bookkeeping: count the
execution, run the crash detector, and on a crash count it and — when
unique with respect to the crashes recorded so far — append it. -/
def fuzzStep (st : FuzzingResult × CrashDetectorState) (execution : FuzzExecutionResult) :
    FuzzingResult × CrashDetectorState :=
  let result := { st.1 with total_executions := st.1.total_executions + 1 }
  match analyze_execution st.2 execution with
  | (some crash, detector) =>
      let result := { result with crashes_found := result.crashes_found + 1 }
      if is_unique_crash crash result.crashes then
        ({ result with
            unique_crashes := result.unique_crashes + 1
            crashes := result.crashes ++ [crash] }, detector)
      else (result, detector)
  | (none, detector) => (result, detector)

/-- `FuzzingEngine::fuzz_code` (fuzzing.rs 214–307).  The loop runs
for at most `config.iterations` tries and may stop earlier on the
wall-clock bound; `executions` is the sequence of per-iteration
outcomes actually observed, so callers guarantee
`executions.length ≤ config.iterations`. -/
def fuzz_code (executions : List FuzzExecutionResult) : FuzzingResult :=
  (executions.foldl fuzzStep (FuzzingResult.init, { crash_history := [] })).1

/-! ## Validation result and aggregator (`lib.rs`, `validation.rs`) -/

/-- `ValidationResult` (lib.rs 192–207); timestamps, duration and
metadata are omitted (wall clock / free-form JSON). -/
structure ValidationResult where
  validation_id : String
  codebase_id : String
  status : ValidationStatus
  overall_score : ℚ
  security_result : SecurityResult
  performance_metrics : PerformanceMetrics
  fuzzing_result : Option FuzzingResult
  findings : List Finding
  recommendations : List Recommendation
deriving DecidableEq, Repr

/-- `ResultAggregator::calculate_performance_score`
(validation.rs 623–632). -/
def calculate_performance_score (metrics : PerformanceMetrics) : ℚ :=
  let cpu_score := max (100 - metrics.cpu_usage_percent) 0
  let memory_score :=
    if metrics.memory_usage_mb > 0 then
      max (100 - (metrics.memory_usage_mb : ℚ) / 10) 0
    else 100
  (cpu_score + memory_score) / 2

/-- `ResultAggregator::calculate_functionality_score`
(validation.rs 635–645). -/
def calculate_functionality_score (result : ValidationResult) : ℚ :=
  let runtime_errors :=
    (result.findings.filter (fun f => f.finding_type == FindingType.RuntimeError)).length
  if runtime_errors = 0 then 100
  else max (100 - (runtime_errors : ℚ) * 20) 0

/-- `ResultAggregator::calculate_quality_score`
(validation.rs 648–652). -/
def calculate_quality_score (result : ValidationResult) : ℚ :=
  max (100 - (result.findings.length : ℚ) * 5) 0

/-- `ResultAggregator::calculate_reliability_score`
(validation.rs 655–665). -/
def calculate_reliability_score (result : ValidationResult) : ℚ :=
  let crash_findings :=
    (result.findings.filter (fun f => f.finding_type == FindingType.CrashProne)).length
  if crash_findings = 0 then 100
  else max (100 - (crash_findings : ℚ) * 25) 0

/-- `ResultAggregator::calculate_weighted_score`
(validation.rs 605–620), with the default weights of
`ResultAggregator::new` (0.30/0.20/0.25/0.15/0.10) and Rust's
`clamp(0.0, 100.0)` = `min (max w 0) 100`. -/
def calculate_weighted_score (result : ValidationResult) : ℚ :=
  let security_score := result.security_result.security_score
  let performance_score := calculate_performance_score result.performance_metrics
  let functionality_score := calculate_functionality_score result
  let quality_score := calculate_quality_score result
  let reliability_score := calculate_reliability_score result
  let weighted_score :=
    security_score * 0.30 + performance_score * 0.20 + functionality_score * 0.25
    + quality_score * 0.15 + reliability_score * 0.10
  min (max weighted_score 0) 100

/-- The overall score as the specification words it (claim C4). -/
def weightedScoreSpec (result : ValidationResult) : ℚ :=
  let performance :=
    (max 0 (100 - result.performance_metrics.cpu_usage_percent)
      + max 0 (100 - (result.performance_metrics.memory_usage_mb : ℚ) / 10)) / 2
  let functionality :=
    max 0 (100 - 20 * ((result.findings.filter
      (fun f => f.finding_type == FindingType.RuntimeError)).length : ℚ))
  let quality := max 0 (100 - 5 * (result.findings.length : ℚ))
  let reliability :=
    max 0 (100 - 25 * ((result.findings.filter
      (fun f => f.finding_type == FindingType.CrashProne)).length : ℚ))
  max 0 (min 100
    (0.30 * result.security_result.security_score + 0.20 * performance
      + 0.25 * functionality + 0.15 * quality + 0.10 * reliability))

/-- `ResultAggregator::generate_recommendations`
(validation.rs 668–698): a security recommendation below score 70 and
a CPU recommendation above 80% — and nothing else.  UUIDs are
placeholders. -/
def aggregator_generate_recommendations (result : ValidationResult) : List Recommendation :=
  (if result.security_result.security_score < 70 then
    [{ id := ""
       title := "Improve Security Posture"
       description := "Address security vulnerabilities found during scanning"
       priority := .Critical
       action := "Review and fix security findings"
       effort := .High
       impact := .Critical }]
  else []) ++
  (if result.performance_metrics.cpu_usage_percent > 80 then
    [{ id := ""
       title := "Optimize Performance"
       description := "High resource usage detected during execution"
       priority := .Medium
       action := "Profile and optimize CPU-intensive operations"
       effort := .Medium
       impact := .High }]
  else [])

/-! ## Configuration (`lib.rs` 42–158) -/

/-- `ContainerConfig` (lib.rs); environment map and security options
omitted. -/
structure ContainerConfig where
  image : String
  memory_limit_mb : Nat
  cpu_limit_cores : ℚ
  timeout_seconds : Nat
  network_isolation : Bool
  readonly_filesystem : Bool
  temp_dir_size_mb : Nat
deriving DecidableEq, Repr

/-- `PerformanceThresholds` (lib.rs). -/
structure PerformanceThresholds where
  max_execution_time_ms : Nat
  max_memory_usage_mb : Nat
  max_cpu_usage_percent : ℚ
  max_io_ops_per_second : Nat
deriving DecidableEq, Repr

/-- `PerformanceConfig` (lib.rs). -/
structure PerformanceConfig where
  enable_cpu_profiling : Bool
  enable_memory_profiling : Bool
  enable_io_profiling : Bool
  benchmark_iterations : Nat
  thresholds : PerformanceThresholds
deriving DecidableEq, Repr

/-- `SecurityConfig` (lib.rs). -/
structure SecurityConfig where
  enable_syscall_monitoring : Bool
  enable_network_monitoring : Bool
  enable_file_monitoring : Bool
  blocked_syscalls : List String
  allowed_networks : List String
  sensitive_files : List String
deriving DecidableEq, Repr

/-- `ValidationConfig` (lib.rs); `max_validation_time` carried in
seconds. -/
structure ValidationConfig where
  max_validation_time_s : Nat
  parallel_execution : Bool
  cleanup_after_validation : Bool
  detailed_logging : Bool
deriving DecidableEq, Repr

/-- `RuntimeConfig` (lib.rs). -/
structure RuntimeConfig where
  container : ContainerConfig
  performance : PerformanceConfig
  security : SecurityConfig
  fuzzing : FuzzingConfig
  validation : ValidationConfig
deriving DecidableEq, Repr

/-- `RuntimeConfig::default` (lib.rs 764–820). -/
def RuntimeConfig.default : RuntimeConfig :=
  { container :=
      { image := "kwality/runner:latest"
        memory_limit_mb := 512
        cpu_limit_cores := 1
        timeout_seconds := 300
        network_isolation := true
        readonly_filesystem := false
        temp_dir_size_mb := 100 }
    performance :=
      { enable_cpu_profiling := true
        enable_memory_profiling := true
        enable_io_profiling := true
        benchmark_iterations := 3
        thresholds :=
          { max_execution_time_ms := 10000
            max_memory_usage_mb := 256
            max_cpu_usage_percent := 90
            max_io_ops_per_second := 1000 } }
    security :=
      { enable_syscall_monitoring := true
        enable_network_monitoring := true
        enable_file_monitoring := true
        blocked_syscalls := ["ptrace", "mount", "umount"]
        allowed_networks := ["127.0.0.1"]
        sensitive_files := ["/etc/passwd", "/etc/shadow"] }
    fuzzing :=
      { enabled := false
        duration_seconds := 60
        iterations := 1000
        strategy := .Random
        coverage_guided := true }
    validation :=
      { max_validation_time_s := 600
        parallel_execution := false
        cleanup_after_validation := true
        detailed_logging := false } }

/-! ## RuntimeValidator (`lib.rs` 292–740) -/

/-- `container::ExecutionResult` (container.rs 48–56), restricted to
the fields the validator inspects. -/
structure ContainerExecutionResult where
  exit_code : Int
  stdout : String
  stderr : String
deriving DecidableEq, Repr

/-- One entry of the `error_patterns` table of
`RuntimeValidator::analyze_stderr` (lib.rs 539–546): the regex source
text, its literal alternatives, and the finding classification. -/
structure StderrPattern where
  source : String
  alternatives : List String
  finding_type : FindingType
  severity : Severity
deriving DecidableEq, Repr

/-- The `error_patterns` table of `analyze_stderr` (lib.rs 539–546). -/
def error_patterns : List StderrPattern :=
  [{ source := "segmentation fault|segfault"
     alternatives := ["segmentation fault", "segfault"]
     finding_type := .CrashProne, severity := .Critical },
   { source := "memory leak|leak sanitizer"
     alternatives := ["memory leak", "leak sanitizer"]
     finding_type := .MemoryLeak, severity := .High },
   { source := "buffer overflow|stack overflow"
     alternatives := ["buffer overflow", "stack overflow"]
     finding_type := .SecurityVulnerability, severity := .Critical },
   { source := "assertion failed|panic"
     alternatives := ["assertion failed", "panic"]
     finding_type := .RuntimeError, severity := .Medium },
   { source := "out of memory|oom"
     alternatives := ["out of memory", "oom"]
     finding_type := .ResourceExhaustion, severity := .High },
   { source := "timeout|deadlock"
     alternatives := ["timeout", "deadlock"]
     finding_type := .PerformanceIssue, severity := .Medium }]

/-- `RuntimeValidator::analyze_stderr` (lib.rs 538–568): one finding
per matching pattern, in table order. -/
def analyze_stderr (stderr : String) : List Finding :=
  (error_patterns.filter (fun p => matchesAlternation p.alternatives stderr)).map
    (fun p =>
      { id := ""
        finding_type := p.finding_type
        severity := p.severity
        title := "Error Pattern Detected: " ++ p.source
        description := "Detected error pattern \x27" ++ p.source ++ "\x27 in program output"
        file := none
        line := none
        evidence := [("pattern", p.source), ("stderr_excerpt", stderr)]
        confidence := 0.8 })

/-- `RuntimeValidator::analyze_performance_issues` (lib.rs 571–641). -/
def analyze_performance_issues (config : RuntimeConfig) (metrics : PerformanceMetrics) :
    List Finding :=
  (if metrics.cpu_usage_percent > config.performance.thresholds.max_cpu_usage_percent then
    [{ id := ""
       finding_type := .PerformanceIssue
       severity := .Medium
       title := "High CPU Usage"
       description := "CPU usage (" ++ toString metrics.cpu_usage_percent
         ++ "%) exceeds threshold ("
         ++ toString config.performance.thresholds.max_cpu_usage_percent ++ "%)"
       file := none, line := none, evidence := [], confidence := 0.9 }]
  else []) ++
  (if metrics.memory_usage_mb > config.performance.thresholds.max_memory_usage_mb then
    [{ id := ""
       finding_type := .PerformanceIssue
       severity := .Medium
       title := "High Memory Usage"
       description := "Memory usage (" ++ toString metrics.memory_usage_mb
         ++ " MB) exceeds threshold ("
         ++ toString config.performance.thresholds.max_memory_usage_mb ++ " MB)"
       file := none, line := none, evidence := [], confidence := 0.9 }]
  else []) ++
  (if metrics.execution_time_ms > config.performance.thresholds.max_execution_time_ms then
    [{ id := ""
       finding_type := .PerformanceIssue
       severity := .Low
       title := "Slow Execution"
       description := "Execution time (" ++ toString metrics.execution_time_ms
         ++ " ms) exceeds threshold ("
         ++ toString config.performance.thresholds.max_execution_time_ms ++ " ms)"
       file := none, line := none, evidence := [], confidence := 0.9 }]
  else [])

/-- The `risk_level` string → `Severity` match used by
`analyze_security_issues` (lib.rs 647–653). -/
def severityFromRiskLevel (risk : String) : Severity :=
  if risk = "critical" then .Critical
  else if risk = "high" then .High
  else if risk = "medium" then .Medium
  else if risk = "low" then .Low
  else .Info

/-- `RuntimeValidator::analyze_security_issues` (lib.rs 644–667). -/
def analyze_security_issues (security : SecurityResult) : List Finding :=
  security.violations.map (fun violation =>
    { id := ""
      finding_type := .SecurityVulnerability
      severity := severityFromRiskLevel violation.risk_level
      title := violation.title
      description := violation.description
      file := none
      line := none
      evidence := violation.evidence
      confidence := 0.8 })

/-- The "Non-zero Exit Code" finding of `analyze_execution_results`
(lib.rs 505–523). -/
def nonZeroExitFinding (execution : ContainerExecutionResult) : Finding :=
  { id := ""
    finding_type := .RuntimeError
    severity := .High
    title := "Non-zero Exit Code"
    description := "Program exited with code " ++ toString execution.exit_code
      ++ " indicating an error"
    file := none
    line := none
    evidence := [("exit_code", toString execution.exit_code), ("stderr", execution.stderr)]
    confidence := 0.9 }

/-- `RuntimeValidator::analyze_execution_results` (lib.rs 499–535):
the findings appended by step 8, in push order. -/
def analyze_execution_results (config : RuntimeConfig)
    (execution : ContainerExecutionResult) (security : SecurityResult)
    (metrics : PerformanceMetrics) : List Finding :=
  (if execution.exit_code ≠ 0 then [nonZeroExitFinding execution] else []) ++
  analyze_stderr execution.stderr ++
  analyze_performance_issues config metrics ++
  analyze_security_issues security

/-- `RuntimeValidator::calculate_overall_score` (lib.rs 670–694). -/
def severityDeduction : Severity → ℚ
  | .Critical => 25
  | .High => 15
  | .Medium => 8
  | .Low => 3
  | .Info => 1

/-- `RuntimeValidator::calculate_overall_score` (lib.rs 670–694):
deduct per finding, average with a performance score and then the
security score, clamp to [0, 100]. -/
def lib_calculate_overall_score (result : ValidationResult) : ℚ :=
  let score := result.findings.foldl
    (fun acc f => acc - severityDeduction f.severity * f.confidence) 100
  let performance_score := 100 - result.performance_metrics.cpu_usage_percent / 2
  let score := (score + performance_score) / 2
  let score := (score + result.security_result.security_score) / 2
  min (max score 0) 100

/-- `RuntimeValidator::generate_recommendations` (lib.rs 697–740):
CPU, then memory, then security, in push order.  UUIDs are
placeholders. -/
def validator_generate_recommendations (result : ValidationResult) : List Recommendation :=
  (if result.performance_metrics.cpu_usage_percent > 80 then
    [{ id := ""
       title := "Optimize CPU Usage"
       description := "The code shows high CPU usage. Consider optimizing algorithms or reducing computational complexity."
       priority := .Medium
       action := "Profile the code to identify CPU hotspots and optimize critical paths"
       effort := .Medium
       impact := .High }]
  else []) ++
  (if result.performance_metrics.memory_usage_mb > 100 then
    [{ id := ""
       title := "Reduce Memory Usage"
       description := "The code uses significant memory. Consider memory optimization techniques."
       priority := .Medium
       action := "Review memory allocation patterns and implement memory pooling where appropriate"
       effort := .Medium
       impact := .Medium }]
  else []) ++
  (if result.security_result.security_score < 70 then
    [{ id := ""
       title := "Improve Security Posture"
       description := "Security analysis identified potential vulnerabilities that should be addressed."
       priority := .High
       action := "Review and fix security vulnerabilities identified in the security scan"
       effort := .High
       impact := .Critical }]
  else [])

/-! ## `RuntimeValidator::validate` (lib.rs 324–429)

`validate` races `execute_validation` against
`tokio::time::timeout(container.timeout_seconds)`.
`execute_validation` runs nine sequential steps (comments in the
source): 1 create environment, 2 start security monitoring, 3 start
profiling, 4 execute the code, 5 collect security results, 6 collect
performance metrics, 7 fuzz (if enabled), 8 analyze execution
results, 9 cleanup (if configured).  When the timer expires the
future is dropped, but the mutations it already made to the shared
`result` (steps 5–8) persist.  The model takes the observed step data
as inputs and a `PipelineOutcome` describing how the race ended.

Resource-release semantics of a drop, from container.rs:
  * the workspace lives in `ExecutionEnvironment.temp_dir`, a
    `tempfile::TempDir` (container.rs 41); its `Drop` deletes the
    directory (container.rs 237), and the environment is dropped — on
    completion, on error propagation, and when the timer drops the
    future — before `validate` finalizes the result, so the host
    workspace is removed on every exit path;
  * the container exists only inside step 4 (`execute_code`,
    container.rs 149–221): created at container.rs 156, stopped and
    force-removed at container.rs 201–211; at every step boundary no
    container survives (none created before step 4, removed after it),
    but a drop inside step 4 between `create_container` returning and
    `remove_container` completing leaves the container behind, and
    nothing else can remove it: `env.container_id` stays `None`
    forever (container.rs 137, never assigned), so the
    `cleanup_environment` container branch (container.rs 228–235)
    never fires. -/

/-- Where the expiring timer dropped the `execute_validation` future:
at a step boundary with `steps_done` steps completed, or inside
step 4 (`execute_code`, with 3 steps completed), where
`container_created` records whether `create_container` had returned
— and `remove_container` not yet completed — at the drop. -/
inductive TimeoutPoint
  | betweenSteps (steps_done : Nat)
  | insideExecuteCode (container_created : Bool)
deriving DecidableEq, Repr

/-- How the `timeout(...)` race in `validate` ended: the pipeline
finished, it returned an error after `steps_done` completed steps, or
the global timer expired at `point`. -/
inductive PipelineOutcome
  | completed
  | failed (steps_done : Nat) (error_message : String)
  | timedOut (point : TimeoutPoint)
deriving DecidableEq, Repr

/-- The mutations of `execute_validation` visible after part of its
nine steps, plus the observable resource effects: whether the step-9
`cleanup_environment` call ran, whether the host workspace directory
has been deleted (`TempDir` RAII), and whether no container of this
validation survives. -/
structure PartialExecState where
  security_result : SecurityResult
  performance_metrics : PerformanceMetrics
  fuzzing_result : Option FuzzingResult
  findings : List Finding
  cleanup_environment_ran : Bool
  workspace_removed : Bool
  container_removed : Bool
deriving DecidableEq, Repr

/-- State of the shared `result` (and of the resource effects) when
`execute_validation` (lib.rs 432–496) stops at the boundary after its
first `k` steps.  `workspace_removed` is true on every exit path (the
`TempDir` drop); `container_removed` is true at every step boundary
(no container exists before step 4, and step 4 ends by stopping and
force-removing its container); step 9's `cleanup_environment` call
itself removes no container since `env.container_id` is never
populated. -/
def executeValidationUpTo (config : RuntimeConfig)
    (execution : ContainerExecutionResult) (security : SecurityResult)
    (metrics : PerformanceMetrics) (fuzzing : FuzzingResult) (k : Nat) :
    PartialExecState :=
  { security_result := if 5 ≤ k then security else SecurityResult.default
    performance_metrics := if 6 ≤ k then metrics else PerformanceMetrics.default
    fuzzing_result :=
      if 7 ≤ k ∧ config.fuzzing.enabled then some fuzzing else none
    findings :=
      if 8 ≤ k then analyze_execution_results config execution security metrics else []
    cleanup_environment_ran := decide (9 ≤ k) && config.validation.cleanup_after_validation
    workspace_removed := true
    container_removed := true }

/-- State when the timer dropped the future at `point`: at a step
boundary this is `executeValidationUpTo`; inside step 4 (3 steps
completed) the container survives exactly when `create_container` had
returned and `remove_container` had not yet run. -/
def executeValidationAt (config : RuntimeConfig)
    (execution : ContainerExecutionResult) (security : SecurityResult)
    (metrics : PerformanceMetrics) (fuzzing : FuzzingResult) :
    TimeoutPoint → PartialExecState
  | .betweenSteps k => executeValidationUpTo config execution security metrics fuzzing k
  | .insideExecuteCode container_created =>
      { executeValidationUpTo config execution security metrics fuzzing 3 with
        container_removed := !container_created }

/-- The single "Validation Timeout" finding appended by the timeout
branch of `validate` (lib.rs 395–408). -/
def validationTimeoutFinding (config : RuntimeConfig) : Finding :=
  { id := ""
    finding_type := .RuntimeError
    severity := .High
    title := "Validation Timeout"
    description := "Runtime validation exceeded "
      ++ toString config.container.timeout_seconds ++ " seconds timeout"
    file := none
    line := none
    evidence := []
    confidence := 1 }

/-- The "Validation Execution Failed" finding of the `Err` branch of
`validate` (lib.rs 373–383). -/
def validationFailedFinding (error_message : String) : Finding :=
  { id := ""
    finding_type := .RuntimeError
    severity := .Critical
    title := "Validation Execution Failed"
    description := "Runtime validation failed: " ++ error_message
    file := none
    line := none
    evidence := []
    confidence := 1 }

/-- Result of `validate` together with the observable host-side
resource effects. -/
structure ValidateOutput where
  result : ValidationResult
  cleanup_environment_ran : Bool
  workspace_removed : Bool
  container_removed : Bool
deriving DecidableEq, Repr

/-- `RuntimeValidator::validate` (lib.rs 324–429).  After the race,
the status and a timeout/failure finding are set, then the overall
score and the recommendations are computed from the final result. -/
def RuntimeValidator.validate (config : RuntimeConfig) (codebase : Codebase)
    (execution : ContainerExecutionResult) (security : SecurityResult)
    (metrics : PerformanceMetrics) (fuzzing : FuzzingResult)
    (outcome : PipelineOutcome) : ValidateOutput :=
  let base (st : PartialExecState) (status : ValidationStatus) (extra : List Finding) :
      ValidationResult × PartialExecState :=
    ({ validation_id := ""
       codebase_id := codebase.id
       status := status
       overall_score := 0
       security_result := st.security_result
       performance_metrics := st.performance_metrics
       fuzzing_result := st.fuzzing_result
       findings := st.findings ++ extra
       recommendations := [] }, st)
  let (result, st) :=
    match outcome with
    | .completed =>
        base (executeValidationUpTo config execution security metrics fuzzing 9)
          .Completed []
    | .failed k msg =>
        base (executeValidationUpTo config execution security metrics fuzzing k)
          .Failed [validationFailedFinding msg]
    | .timedOut point =>
        base (executeValidationAt config execution security metrics fuzzing point)
          .Timeout [validationTimeoutFinding config]
  let result := { result with overall_score := lib_calculate_overall_score result }
  let result := { result with recommendations := validator_generate_recommendations result }
  { result := result
    cleanup_environment_ran := st.cleanup_environment_ran
    workspace_removed := st.workspace_removed
    container_removed := st.container_removed }

/-! ## Session registry (`validation.rs` 25–245, 319–323, 547–554) -/

/-- `ValidationSession` (validation.rs 37–45); timestamps, progress
and per-engine status are omitted (not needed by any claim). -/
structure ValidationSession where
  validation_id : String
  codebase_id : String
  status : ValidationStatus
deriving DecidableEq, Repr

/-- The `active_validations` map of the orchestrator, as an
association list keyed by validation id. -/
def Registry := List (String × ValidationSession)

/-- `active_validations.get(id)` — the registry lookup used by
`get_validation_status`. -/
def lookupSession (registry : Registry) (validation_id : String) :
    Option ValidationSession :=
  (List.find? (fun p => p.1 == validation_id) registry).map (fun p => p.2)

/-- `ValidationOrchestrator::cancel_validation` (validation.rs
236–245): `get_mut` the session and set its status to `Cancelled`;
the entry is not removed. -/
def cancel_validation (registry : Registry) (validation_id : String) : Registry :=
  registry.map (fun p =>
    if p.1 == validation_id then (p.1, { p.2 with status := .Cancelled }) else p)

/-- `ValidationOrchestrator::mark_validation_failed` (validation.rs
547–554): `get_mut` the session and set its status to `Failed`; the
entry is not removed. -/
def mark_validation_failed (registry : Registry) (validation_id : String) : Registry :=
  registry.map (fun p =>
    if p.1 == validation_id then (p.1, { p.2 with status := .Failed }) else p)

/-- The `active_validations.remove(validation_id)` step near the end
of `ValidationOrchestrator::execute_validation` (validation.rs
319–323). -/
def remove_validation (registry : Registry) (validation_id : String) : Registry :=
  registry.filter (fun p => !(p.1 == validation_id))

/-! ## Concrete inputs used by counterexamples, failing-input
evaluations and witnesses -/

/-- A codebase with no files. -/
def emptyCodebase : Codebase :=
  { id := "cb-empty", name := "empty", files := [], metadata := [] }

/-- Metrics of a run that used 200 MB of memory and no CPU. -/
def memHogMetrics : PerformanceMetrics :=
  { PerformanceMetrics.default with memory_usage_mb := 200 }

/-- A finished validation result whose only notable datum is the
200 MB memory usage (security score 100, no findings). -/
def memHogResult : ValidationResult :=
  { validation_id := "v-mem"
    codebase_id := "cb-mem"
    status := .Completed
    overall_score := 0
    security_result := { SecurityResult.default with
      security_score := 100, risk_level := .Minimal }
    performance_metrics := memHogMetrics
    fuzzing_result := none
    findings := []
    recommendations := [] }

/-- A registry holding one running session. -/
def registryOne : Registry :=
  [("v1", { validation_id := "v1", codebase_id := "cb1", status := .Running })]

/-- A clean container execution (exit 0, empty streams). -/
def cleanExecution : ContainerExecutionResult :=
  { exit_code := 0, stdout := "", stderr := "" }

/-- A fuzzing iteration outcome that segfaulted. -/
def segfaultExecution : FuzzExecutionResult :=
  { exit_code := 139, execution_time_ms := 5, memory_usage := 2048
    execution_path := "path-1", stdout := "", stderr := "segfault at 0x0" }

/-- The counting invariant maintained by the `fuzz_code` loop. -/
def fuzzCountsInv (st : FuzzingResult × CrashDetectorState) : Prop :=
  st.1.unique_crashes = st.1.crashes.length ∧
  st.1.unique_crashes ≤ st.1.crashes_found ∧
  st.1.crashes_found ≤ st.1.total_executions

/-- `validate` under the default configuration when the global timer
expires inside step 4 (`execute_code`), after `create_container` has
returned and before the stop/remove tail has run. -/
def timedOutValidateOutput : ValidateOutput :=
  RuntimeValidator.validate RuntimeConfig.default emptyCodebase cleanExecution
    SecurityResult.default PerformanceMetrics.default FuzzingResult.init
    (.timedOut (.insideExecuteCode true))

/-- `validate` under the default configuration when the global timer
expires at the boundary after step 2 of `execute_validation`
(environment created, security monitoring started; no container
yet). -/
def timedOutEarlyValidateOutput : ValidateOutput :=
  RuntimeValidator.validate RuntimeConfig.default emptyCodebase cleanExecution
    SecurityResult.default PerformanceMetrics.default FuzzingResult.init
    (.timedOut (.betweenSteps 2))

/-! ## Helper lemmas -/

/-- Folding subtraction over a list subtracts the mapped sum. -/
theorem foldl_sub_eq (f : α → ℚ) (l : List α) (init : ℚ) :
    l.foldl (fun acc x => acc - f x) init = init - (l.map f).sum := by
  induction l generalizing init with
  | nil => simp
  | cons x xs ih => simp [List.foldl_cons, ih]; ring

/-- Rust's `clamp(0, 100)` agrees with the spec's
`max 0 (min 100 ·)` phrasing. -/
theorem clamp_comm (w : ℚ) : min (max w 0) 100 = max 0 (min 100 w) := by
  rcases le_total w 0 with h | h
  · rw [max_eq_right h, min_eq_left (by norm_num),
      min_eq_right (h.trans (by norm_num)), max_eq_left h]
  · rw [max_eq_left h, min_comm, max_comm]
    rcases le_total w 100 with h2 | h2
    · rw [min_eq_right h2, max_eq_left h]
    · rw [min_eq_left h2, max_eq_left ((by norm_num : (0:ℚ) ≤ 100))]

/-! ## Claim C8 — risk level derivation -/

/-- C8: for every computed security score `s` and violation list, the
derived risk level is Critical when some violation is Critical or
`s < 30`; otherwise High when `s < 50`; otherwise Medium when
`s < 70`; otherwise Low when `s < 90`; otherwise Minimal. -/
theorem determine_risk_level_matches_spec (score : ℚ)
    (violations : List SecurityViolation) :
    determine_risk_level score violations = riskLevelSpec score violations := by
  have hcond : ((violations.any (fun v => v.severity == ViolationSeverity.Critical)
      || decide (score < 30)) = true) ↔
      ((∃ v ∈ violations, v.severity = ViolationSeverity.Critical) ∨ score < 30) := by
    simp [List.any_eq_true]
  unfold determine_risk_level riskLevelSpec
  by_cases h : (∃ v ∈ violations, v.severity = ViolationSeverity.Critical) ∨ score < 30
  · rw [if_pos (hcond.mpr h), if_pos h]
  · rw [if_neg (fun hb => h (hcond.mp hb)), if_neg h]

/-! ## Claim C10 — scan findings do not depend on the codebase -/

/-- C10: for any two codebases, the vulnerability list and the
secret-finding list the security observer collects are identical
(timestamps, which the embedding omits, aside): both `get_findings`
implementations return fixed example data. -/
theorem scan_findings_codebase_independent (cb1 cb2 : Codebase) :
    collect_vulnerabilities cb1 = collect_vulnerabilities cb2 ∧
    collect_secrets cb1 = collect_secrets cb2 :=
  ⟨rfl, rfl⟩

/-! ## Claim C5 — per-match vulnerability records -/

/-- C5 (failing-input evaluation): on a codebase with no files there
is no file for any vulnerability-catalogue regex to match — for every
match oracle the scan emits nothing — yet the vulnerabilities
returned through `collect_results` are the fixed example list of
length 1, so they are not the per-match records. -/
theorem get_findings_not_per_match :
    (∀ isMatch : String → String → Bool,
      (emptyCodebase.files.map (VulnerabilityScanner.scan_file isMatch)).flatten = []) ∧
    collect_vulnerabilities emptyCodebase = VulnerabilityScanner.get_findings ∧
    (collect_vulnerabilities emptyCodebase).length = 1 :=
  ⟨fun _ => rfl, rfl, rfl⟩

/-! ## Claim C2 — registry entries for terminal sessions -/

/-- C2 (counterexample): `cancel_validation` sets the terminal status
`Cancelled` but leaves the session in `active_validations`, so a
validation that has reached a terminal status still has a registry
entry. -/
theorem cancel_validation_keeps_entry :
    lookupSession (cancel_validation registryOne "v1") "v1" =
      some { validation_id := "v1", codebase_id := "cb1", status := .Cancelled } ∧
    ValidationStatus.isTerminal .Cancelled = true :=
  ⟨rfl, rfl⟩

/-- C2 (amended): only the removal step inside
`ValidationOrchestrator::execute_validation` deletes the session:
after it, the registry has no entry for the id; `cancel_validation`
and `mark_validation_failed` merely set the terminal statuses
`Cancelled`/`Failed` and leave the entry in place. -/
theorem registry_terminal_semantics (registry : Registry) (validation_id : String) :
    lookupSession (remove_validation registry validation_id) validation_id = none ∧
    lookupSession (cancel_validation registry validation_id) validation_id =
      (lookupSession registry validation_id).map
        (fun s => { s with status := .Cancelled }) ∧
    lookupSession (mark_validation_failed registry validation_id) validation_id =
      (lookupSession registry validation_id).map
        (fun s => { s with status := .Failed }) := by
  refine ⟨?_, ?_, ?_⟩
  · unfold lookupSession remove_validation
    have hnone : List.find? (fun p => p.1 == validation_id)
        (registry.filter (fun p => !(p.1 == validation_id))) = none := by
      rw [List.find?_eq_none]
      intro x hx
      have hmem := List.of_mem_filter hx
      simpa using hmem
    rw [hnone]
    rfl
  · induction registry with
    | nil => rfl
    | cons p rest ih =>
      by_cases h : p.1 == validation_id
      · have hp : p.1 = validation_id := by simpa using h
        simp [cancel_validation, lookupSession, List.find?_cons, hp]
      · simp only [cancel_validation, lookupSession, List.map_cons, List.find?_cons, h,
          if_neg] at ih ⊢
        simpa [h] using ih
  · induction registry with
    | nil => rfl
    | cons p rest ih =>
      by_cases h : p.1 == validation_id
      · have hp : p.1 = validation_id := by simpa using h
        simp [mark_validation_failed, lookupSession, List.find?_cons, hp]
      · simp only [mark_validation_failed, lookupSession, List.map_cons, List.find?_cons, h,
          if_neg] at ih ⊢
        simpa [h] using ih

/-! ## Claim C6 — memory recommendation -/

/-- C6 (counterexample): a result reporting 200 MB of memory use,
with a clean security score and idle CPU, gets an empty
recommendation list from `ResultAggregator::generate_recommendations`
— in particular no "Reduce Memory Usage" recommendation; the
aggregator only reacts to the security and CPU thresholds. -/
theorem aggregator_no_memory_recommendation :
    memHogResult.performance_metrics.memory_usage_mb > 100 ∧
    aggregator_generate_recommendations memHogResult = [] := by
  exact ⟨by decide, rfl⟩

/-- C6 (amended): the memory-threshold recommendation is produced by
`RuntimeValidator::generate_recommendations`, not by the
`ResultAggregator`: for every result whose metrics report more than
100 MB, the validator's recommendation list contains a
recommendation titled "Reduce Memory Usage" with priority Medium. -/
theorem validator_memory_recommendation (result : ValidationResult)
    (h : result.performance_metrics.memory_usage_mb > 100) :
    ∃ rec ∈ validator_generate_recommendations result,
      rec.title = "Reduce Memory Usage" ∧ rec.priority = Priority.Medium := by
  unfold validator_generate_recommendations
  rw [if_pos h]
  refine ⟨{ id := ""
            title := "Reduce Memory Usage"
            description := "The code uses significant memory. Consider memory optimization techniques."
            priority := .Medium
            action := "Review memory allocation patterns and implement memory pooling where appropriate"
            effort := .Medium
            impact := .Medium }, ?_, rfl, rfl⟩
  simp [List.mem_append]

/-- C6 witness: the amended theorem applied to the 200 MB result. -/
theorem validator_memory_recommendation_witness :
    memHogResult.performance_metrics.memory_usage_mb > 100 ∧
    ∃ rec ∈ validator_generate_recommendations memHogResult,
      rec.title = "Reduce Memory Usage" ∧ rec.priority = Priority.Medium :=
  ⟨by decide, validator_memory_recommendation memHogResult (by decide)⟩

/-! ## Claim C3 — security score formula -/

/-- Each per-violation deduction is nonnegative. -/
theorem violationDeduction_nonneg (sev : ViolationSeverity) :
    0 ≤ violationDeduction sev := by
  cases sev <;> norm_num [violationDeduction]

/-- Each per-vulnerability deduction is nonnegative. -/
theorem vulnerabilityDeduction_nonneg (sev : VulnerabilitySeverity) :
    0 ≤ vulnerabilityDeduction sev := by
  cases sev <;> norm_num [vulnerabilityDeduction]

/-- Each per-secret base deduction is nonnegative. -/
theorem secretDeduction_nonneg (sev : SecretSeverity) :
    0 ≤ secretDeduction sev := by
  cases sev <;> norm_num [secretDeduction]

/-- C3: for every list of violations, vulnerabilities and secret
findings (whose confidences respect the documented [0, 1] invariant),
the security score equals 100 minus 25/15/8/3/1 per violation by
severity, minus 30/20/10/5 per vulnerability by severity, minus
(20/12/6/2 × confidence) per secret by severity, clamped to [0, 100].
The source clamps only from below (`score.max(0.0)`); with
nonnegative confidences the deductions are nonnegative, so the score
never exceeds 100 and the lower clamp coincides with the full
clamp. -/
theorem calculate_security_score_matches_spec
    (violations : List SecurityViolation) (vulnerabilities : List Vulnerability)
    (secrets : List SecretFindings)
    (hconf : ∀ s ∈ secrets, 0 ≤ s.confidence ∧ s.confidence ≤ 1) :
    calculate_security_score violations vulnerabilities secrets =
      securityScoreSpec violations vulnerabilities secrets := by
  simp only [calculate_security_score, securityScoreSpec]
  rw [foldl_sub_eq, foldl_sub_eq, foldl_sub_eq]
  have hA : 0 ≤ (violations.map (fun v => violationDeduction v.severity)).sum := by
    apply List.sum_nonneg
    intro x hx
    obtain ⟨v, _, rfl⟩ := List.mem_map.mp hx
    exact violationDeduction_nonneg _
  have hB : 0 ≤ (vulnerabilities.map (fun v => vulnerabilityDeduction v.severity)).sum := by
    apply List.sum_nonneg
    intro x hx
    obtain ⟨v, _, rfl⟩ := List.mem_map.mp hx
    exact vulnerabilityDeduction_nonneg _
  have hC : 0 ≤ (secrets.map (fun s => secretDeduction s.severity * s.confidence)).sum := by
    apply List.sum_nonneg
    intro x hx
    obtain ⟨s, hs, rfl⟩ := List.mem_map.mp hx
    exact mul_nonneg (secretDeduction_nonneg _) (hconf s hs).1
  rw [min_eq_right (by linarith), max_comm]
  congr 1
  ring

/-- C3 witness: one High violation, one Low vulnerability and the
example High secret with confidence 0.85. -/
theorem calculate_security_score_matches_spec_witness :
    (∀ s ∈ SecretsDetector.get_findings, 0 ≤ s.confidence ∧ s.confidence ≤ 1) ∧
    calculate_security_score [] [] SecretsDetector.get_findings =
      securityScoreSpec [] [] SecretsDetector.get_findings := by
  have h : ∀ s ∈ SecretsDetector.get_findings, 0 ≤ s.confidence ∧ s.confidence ≤ 1 := by
    intro s hs
    simp only [SecretsDetector.get_findings, List.mem_singleton] at hs
    subst hs
    norm_num
  exact ⟨h, calculate_security_score_matches_spec [] [] _ h⟩

/-! ## Claim C4 — weighted overall score -/

/-- `max · 0` versus the spec's `max 0 ·`. -/
theorem max_zero_comm (x : ℚ) : max x 0 = max 0 x := max_comm x 0

/-- C4: the aggregated overall score equals
0.30·security + 0.20·performance + 0.25·functionality + 0.15·quality
+ 0.10·reliability clamped to [0, 100], with the component scores as
the specification words them. -/
theorem calculate_weighted_score_matches_spec (result : ValidationResult) :
    calculate_weighted_score result = weightedScoreSpec result := by
  have hperf : calculate_performance_score result.performance_metrics =
      (max 0 (100 - result.performance_metrics.cpu_usage_percent)
        + max 0 (100 - (result.performance_metrics.memory_usage_mb : ℚ) / 10)) / 2 := by
    simp only [calculate_performance_score, max_zero_comm]
    by_cases h : result.performance_metrics.memory_usage_mb > 0
    · rw [if_pos h]
    · rw [if_neg h]
      have h0 : result.performance_metrics.memory_usage_mb = 0 := by omega
      rw [h0]
      norm_num
  have hfun : calculate_functionality_score result =
      max 0 (100 - 20 * ((result.findings.filter
        (fun f => f.finding_type == FindingType.RuntimeError)).length : ℚ)) := by
    simp only [calculate_functionality_score, max_zero_comm]
    by_cases h : (result.findings.filter
        (fun f => f.finding_type == FindingType.RuntimeError)).length = 0
    · rw [if_pos h, h]
      norm_num
    · rw [if_neg h]
      congr 1
      ring
  have hqual : calculate_quality_score result =
      max 0 (100 - 5 * (result.findings.length : ℚ)) := by
    simp only [calculate_quality_score, max_zero_comm]
    congr 1
    ring
  have hrel : calculate_reliability_score result =
      max 0 (100 - 25 * ((result.findings.filter
        (fun f => f.finding_type == FindingType.CrashProne)).length : ℚ)) := by
    simp only [calculate_reliability_score, max_zero_comm]
    by_cases h : (result.findings.filter
        (fun f => f.finding_type == FindingType.CrashProne)).length = 0
    · rw [if_pos h, h]
      norm_num
    · rw [if_neg h]
      congr 1
      ring
  simp only [calculate_weighted_score, weightedScoreSpec]
  rw [hperf, hfun, hqual, hrel, ← clamp_comm]
  congr 2
  ring

/-! ## Claim C7 — crash detection, classification, dedup, history -/

/-- C7: exit code 0 yields no crash report and leaves the detector
untouched; a non-zero exit code yields a report classified by the
first matching stderr pattern in table order, falling through to
`Other(exit code)`; the bounded history stays within 1000 entries;
and crash uniqueness is judged by the (crash-kind variant,
crash-location) pair. -/
theorem analyze_execution_matches_spec (st : CrashDetectorState)
    (execution : FuzzExecutionResult)
    (hlen : st.crash_history.length ≤ 1000) :
    (execution.exit_code = 0 → analyze_execution st execution = (none, st)) ∧
    (execution.exit_code ≠ 0 →
      ((analyze_execution st execution).1.map (fun c => c.crash_type)) =
        some (classifyCrashSpec execution)) ∧
    (analyze_execution st execution).2.crash_history.length ≤ 1000 ∧
    (∀ (crash : CrashReport) (existing : List CrashReport),
      is_unique_crash crash existing = true ↔
        ∀ e ∈ existing, ¬(CrashType.tag crash.crash_type = CrashType.tag e.crash_type ∧
          crash.crash_location = e.crash_location)) := by
  refine ⟨?_, ?_, ?_, ?_⟩
  · intro h
    unfold analyze_execution
    rw [if_pos h]
  · intro h
    by_cases h1 : matchesAlternation ["segmentation fault", "segfault"] execution.stderr
    · simp [analyze_execution, classifyCrashSpec, crash_patterns, List.find?_cons, h, h1]
    · by_cases h2 : matchesAlternation ["stack overflow"] execution.stderr
      · simp [analyze_execution, classifyCrashSpec, crash_patterns, List.find?_cons, h, h1, h2]
      · by_cases h3 : matchesAlternation ["out of memory", "oom"] execution.stderr
        · simp [analyze_execution, classifyCrashSpec, crash_patterns, List.find?_cons,
            h, h1, h2, h3]
        · by_cases h4 : matchesAlternation ["assertion failed", "panic"] execution.stderr
          · simp [analyze_execution, classifyCrashSpec, crash_patterns, List.find?_cons,
              h, h1, h2, h3, h4]
          · simp [analyze_execution, classifyCrashSpec, crash_patterns, List.find?_cons,
              h, h1, h2, h3, h4]
  · unfold analyze_execution
    by_cases h : execution.exit_code = 0
    · rw [if_pos h]
      exact hlen
    · rw [if_neg h]
      cases hf : crash_patterns.find?
          (fun p => matchesAlternation p.alternatives execution.stderr) with
      | none => exact hlen
      | some p =>
        simp only
        split
        · next hgt =>
          simp only [List.length_drop, List.length_append, List.length_cons,
            List.length_nil] at hgt ⊢
          omega
        · next hgt =>
          simp only [List.length_append, List.length_cons, List.length_nil] at hgt ⊢
          omega
  · intro crash existing
    simp only [is_unique_crash, Bool.not_eq_true', List.any_eq_false, Bool.and_eq_true,
      beq_iff_eq, not_and]

/-- C7 witness: an empty detector history analysing a segfaulting
outcome. -/
theorem analyze_execution_matches_spec_witness :
    (({ crash_history := [] } : CrashDetectorState).crash_history.length ≤ 1000) ∧
    ((segfaultExecution.exit_code = 0 →
      analyze_execution { crash_history := [] } segfaultExecution =
        (none, { crash_history := [] })) ∧
    (segfaultExecution.exit_code ≠ 0 →
      ((analyze_execution { crash_history := [] } segfaultExecution).1.map
          (fun c => c.crash_type)) = some (classifyCrashSpec segfaultExecution)) ∧
    (analyze_execution { crash_history := [] } segfaultExecution).2.crash_history.length
      ≤ 1000 ∧
    (∀ (crash : CrashReport) (existing : List CrashReport),
      is_unique_crash crash existing = true ↔
        ∀ e ∈ existing, ¬(CrashType.tag crash.crash_type = CrashType.tag e.crash_type ∧
          crash.crash_location = e.crash_location))) :=
  ⟨by decide, analyze_execution_matches_spec { crash_history := [] } segfaultExecution
    (by decide)⟩

/-! ## Claim C9 — fuzz campaign counting invariants -/

/-- Each loop iteration increments `total_executions` by exactly 1. -/
theorem fuzzStep_total (st : FuzzingResult × CrashDetectorState)
    (execution : FuzzExecutionResult) :
    (fuzzStep st execution).1.total_executions = st.1.total_executions + 1 := by
  rcases hae : analyze_execution st.2 execution with ⟨oc, d⟩
  cases oc with
  | none => simp [fuzzStep, hae]
  | some c =>
    simp only [fuzzStep, hae]
    split <;> rfl

/-- Each loop iteration preserves the counting invariant. -/
theorem fuzzStep_inv (st : FuzzingResult × CrashDetectorState)
    (execution : FuzzExecutionResult) (h : fuzzCountsInv st) :
    fuzzCountsInv (fuzzStep st execution) := by
  obtain ⟨h1, h2, h3⟩ := h
  rcases hae : analyze_execution st.2 execution with ⟨oc, d⟩
  cases oc with
  | none =>
    simp only [fuzzCountsInv, fuzzStep, hae]
    exact ⟨h1, h2, by omega⟩
  | some c =>
    by_cases hu : is_unique_crash c st.1.crashes = true
    · simp [fuzzCountsInv, fuzzStep, hae, hu]
      refine ⟨by omega, by omega, by omega⟩
    · simp [fuzzCountsInv, fuzzStep, hae, hu]
      refine ⟨by omega, by omega, by omega⟩

/-- Folding the loop preserves the invariant and counts every
iteration. -/
theorem fuzz_foldl_counts (executions : List FuzzExecutionResult)
    (st : FuzzingResult × CrashDetectorState) (h : fuzzCountsInv st) :
    fuzzCountsInv (executions.foldl fuzzStep st) ∧
    (executions.foldl fuzzStep st).1.total_executions =
      st.1.total_executions + executions.length := by
  induction executions generalizing st with
  | nil => exact ⟨h, by simp⟩
  | cons e rest ih =>
    simp only [List.foldl_cons, List.length_cons]
    obtain ⟨ha, hb⟩ := ih (fuzzStep st e) (fuzzStep_inv st e h)
    exact ⟨ha, by rw [hb, fuzzStep_total]; omega⟩

/-- C9: every campaign result of `fuzz_code` has
`unique_crashes = crashes.length` and
`unique_crashes ≤ crashes_found ≤ total_executions ≤ iterations`
(the loop performs at most `config.iterations` iterations, so the
observed outcome trace is no longer than that). -/
theorem fuzz_code_counts (config : FuzzingConfig)
    (executions : List FuzzExecutionResult)
    (hiter : executions.length ≤ config.iterations) :
    (fuzz_code executions).unique_crashes = (fuzz_code executions).crashes.length ∧
    (fuzz_code executions).unique_crashes ≤ (fuzz_code executions).crashes_found ∧
    (fuzz_code executions).crashes_found ≤ (fuzz_code executions).total_executions ∧
    (fuzz_code executions).total_executions ≤ config.iterations := by
  have h0 : fuzzCountsInv (FuzzingResult.init, ({ crash_history := [] } : CrashDetectorState)) := by
    unfold fuzzCountsInv FuzzingResult.init
    exact ⟨rfl, le_refl _, le_refl _⟩
  obtain ⟨⟨h1, h2, h3⟩, h4⟩ := fuzz_foldl_counts executions _ h0
  refine ⟨h1, h2, h3, ?_⟩
  unfold fuzz_code
  rw [h4]
  simpa [FuzzingResult.init] using hiter

/-- C9 witness: a one-outcome campaign under the default fuzzing
configuration (1000 iterations). -/
theorem fuzz_code_counts_witness :
    ([segfaultExecution].length ≤ RuntimeConfig.default.fuzzing.iterations) ∧
    ((fuzz_code [segfaultExecution]).unique_crashes =
        (fuzz_code [segfaultExecution]).crashes.length ∧
      (fuzz_code [segfaultExecution]).unique_crashes ≤
        (fuzz_code [segfaultExecution]).crashes_found ∧
      (fuzz_code [segfaultExecution]).crashes_found ≤
        (fuzz_code [segfaultExecution]).total_executions ∧
      (fuzz_code [segfaultExecution]).total_executions ≤
        RuntimeConfig.default.fuzzing.iterations) :=
  ⟨by decide, fuzz_code_counts RuntimeConfig.default.fuzzing [segfaultExecution] (by decide)⟩

/-! ## Claim C1 — global timeout behaviour of `validate` -/

/-- C1 (failing-input evaluation): under the default configuration
(`timeout_seconds = 300`, `cleanup_after_validation = true`), when
the global timer expires inside step 4 (`execute_code`) after
`create_container` has returned and before the container
stop/remove tail has run, the result has status `Timeout` and exactly
the single "Validation Timeout" finding with severity High, and the
host workspace is removed (the `TempDir` drop) — but the container is
not: its removal lives in the tail of the future that
`tokio::time::timeout` drops, and nothing else ever removes it
(`env.container_id` is never populated, so `cleanup_environment`'s
container branch never fires).  At a step boundary, by contrast
(timer expiring after step 2), both workspace and container are
absent. -/
theorem validate_global_timeout_container_leak :
    timedOutValidateOutput.result.status = ValidationStatus.Timeout ∧
    timedOutValidateOutput.result.findings =
      [validationTimeoutFinding RuntimeConfig.default] ∧
    (validationTimeoutFinding RuntimeConfig.default).title = "Validation Timeout" ∧
    (validationTimeoutFinding RuntimeConfig.default).severity = Severity.High ∧
    RuntimeConfig.default.validation.cleanup_after_validation = true ∧
    timedOutValidateOutput.workspace_removed = true ∧
    timedOutValidateOutput.container_removed = false ∧
    timedOutEarlyValidateOutput.result.status = ValidationStatus.Timeout ∧
    timedOutEarlyValidateOutput.workspace_removed = true ∧
    timedOutEarlyValidateOutput.container_removed = true :=
  ⟨rfl, rfl, rfl, rfl, rfl, rfl, rfl, rfl, rfl, rfl⟩

end Kwality
